import Mathlib

set_option linter.unusedVariables false

/-!
Shallow embedding of the SpendingAPI backend (Express + Prisma over PostgreSQL).

State is a `Store` holding the three Prisma tables (schema.prisma: models
User, Spending, Group) together with the autoincrement counters.  Each route
handler of UserController.js / GroupController.js / SpendingController.js is
translated to a pure function `Store → request fields → Outcome × Store`.

External library functions are parameters of the handlers:
- bcrypt.hashSync with its random salt is a parameter `bhash : String → String`;
- bcrypt.compareSync is a parameter `bverify : String → String → Bool`
  (plaintext, stored hash);
- JavaScript date parsing (`new Date(s)` + `isNaN(getTime())`) is a parameter
  `jsParseDate : String → Option Int` returning the millisecond timestamp,
  `none` when unparseable;
- jwt.sign is modelled by `jwtSign`, recording exactly the claims the source
  embeds in the token.

Request body fields are `Option`-valued (a missing JSON field is `none`);
JavaScript falsiness of a field (`!x || x == ""` resp. `!x || x == 0`) is
`jsFalsyStr` / `jsFalsyNat` / `jsFalsyInt`.

Monetary values (`Float` in the schema) are modelled as `Int`: the handlers
perform no arithmetic on them, only storage, equality with the request value,
and the `value == 0` falsiness test.
-/

namespace SpendingAPI

structure User where
  id : Nat
  name : String
  email : String
  password : String
  groupId : Option Nat
deriving Repr, DecidableEq

structure Group where
  id : Nat
  name : String
  password : String
deriving Repr, DecidableEq

structure Spending where
  id : Nat
  name : String
  day : Int
  value : Int
  userId : Nat
deriving Repr, DecidableEq

structure Store where
  users : List User
  groups : List Group
  spendings : List Spending
  nextUserId : Nat
  nextGroupId : Nat
  nextSpendingId : Nat
deriving Repr, DecidableEq

/-- HTTP result of a handler: the status code it set, the message string of
the JSON body, and the `data` payload (for success responses). -/
inductive Outcome (α : Type) where
  | ok (status : Nat) (message : String) (data : α)
  | err (status : Nat) (message : String)
deriving Repr, DecidableEq

def Outcome.status {α : Type} : Outcome α → Nat
  | .ok st _ _ => st
  | .err st _ => st

/-- JavaScript falsiness of an optional string body field, as tested by
the source's guard pattern (absent, or equal to the empty string). -/
def jsFalsyStr : Option String → Bool
  | none => true
  | some t => t == ""

/-- JavaScript falsiness of an optional numeric id field (absent or zero),
as tested by the source's guard pattern. -/
def jsFalsyNat : Option Nat → Bool
  | none => true
  | some n => n == 0

/-- JavaScript falsiness of an optional numeric value field (absent or zero). -/
def jsFalsyInt : Option Int → Bool
  | none => true
  | some v => v == 0

/-- A signed bearer token, modelled as the claims jwt.sign embeds in it
(the source signs the object with fields id and email). -/
structure Token where
  userId : Nat
  email : String
deriving Repr, DecidableEq

def jwtSign (uid : Nat) (email : String) : Token := ⟨uid, email⟩

/-- The value of a prisma query that the source builds but never awaits:
a pending JS Promise object. -/
inductive JsPromise where
  | pending
deriving Repr, DecidableEq

/-- A JS Promise object compared against null: it is an object, never null. -/
def JsPromise.isNullJs : JsPromise → Bool
  | .pending => false

/-- prisma.user.update where id, data groupId: replaces the matched user's
groupId; `none` when no user matches (prisma throws, caught by the handler). -/
def updateUserGroupId (s : Store) (uid : Nat) (g : Option Nat) :
    Option (User × Store) :=
  match s.users.find? (fun v => v.id == uid) with
  | none => none
  | some u =>
    let u' : User := { u with groupId := g }
    some (u', { s with users := s.users.map (fun v => if v.id == uid then u' else v) })

/-- prisma.user.create in the register handler, with the schema's unique
constraint on User.email: a duplicate email makes the insert throw. -/
def createUserRow (bhash : String → String) (s : Store)
    (name email pw : String) : Outcome Nat × Store :=
  if s.users.any (fun u => u.email == email) then
    (.err 400 "Unique constraint failed on the fields: (email)", s)
  else
    let u : User := ⟨s.nextUserId, name, email, bhash pw, none⟩
    (.ok 201 "Usuário cadastrado com sucesso!" u.id,
     { s with users := s.users ++ [u], nextUserId := s.nextUserId + 1 })

/-- POST /user (UserController.js).  The source assigns
`const existUser = prisma.user.findUnique(...)` WITHOUT await, so `existUser`
is a pending Promise object, and the guard `existUser != null` compares that
object against null. -/
def register (bhash : String → String) (s : Store)
    (name email password : Option String) : Outcome Nat × Store :=
  if jsFalsyStr name then (.err 400 "Nome é obrigatório!", s)
  else if jsFalsyStr email then (.err 400 "Email é obrigatório!", s)
  else if jsFalsyStr password then (.err 400 "Senha é obrigatória!", s)
  else
    let existUser : JsPromise := .pending
    if existUser.isNullJs == false then
      createUserRow bhash s (name.getD "") (email.getD "") (password.getD "")
    else
      (.err 400 "Email já", s)

/-- POST /login (UserController.js). -/
def login (bverify : String → String → Bool) (s : Store)
    (email password : Option String) : Outcome (Nat × Token) × Store :=
  if jsFalsyStr email || jsFalsyStr password then
    (.err 400 "Email ou senha inválidos", s)
  else
    match s.users.find? (fun u => u.email == email.getD "") with
    | none => (.err 404 "Usuário não encontrado!", s)
    | some u =>
      if bverify (password.getD "") u.password then
        (.ok 200 "Login efetuado com sucesso!" (u.id, jwtSign u.id u.email), s)
      else
        (.err 400 "Email ou senha incorretos!", s)

/-- The per-user selection of the group listing endpoints:
select id, name, email, spendings (the full related Spending rows). -/
structure UserView where
  id : Nat
  name : String
  email : String
  spendings : List Spending
deriving Repr, DecidableEq

structure GroupView where
  id : Nat
  name : String
  users : List UserView
deriving Repr, DecidableEq

def selectUser (sp : List Spending) (u : User) : UserView :=
  ⟨u.id, u.name, u.email, sp.filter (fun x => x.userId == u.id)⟩

def selectGroup (users : List User) (sp : List Spending) (g : Group) : GroupView :=
  ⟨g.id, g.name, (users.filter (fun u => u.groupId == some g.id)).map (selectUser sp)⟩

/-- GET /group (GroupController part of UserController.js):
findMany with the nested select of id, name, users(id, name, email, spendings). -/
def listGroups (s : Store) : Outcome (List GroupView) :=
  .ok 200 "Grupos obtido com sucesso!" (s.groups.map (selectGroup s.users s.spendings))

/-- GET /group/:id for a numeric id: prisma.group.findMany filtered by id,
same nested select; the response is sent with the default 200 status. -/
def getGroup (s : Store) (gid : Nat) : Outcome (List GroupView) :=
  .ok 200 "Grupo obtido com sucesso!"
    ((s.groups.filter (fun g => g.id == gid)).map (selectGroup s.users s.spendings))

/-- POST /group.  Source bug kept as written: the membership update is
`prisma.user.update(where: id = group.id)` — keyed on the NEW GROUP's id,
not on the supplied userId. -/
def createGroup (bhash : String → String) (s : Store)
    (userId : Option Nat) (name password : Option String) : Outcome Nat × Store :=
  if jsFalsyNat userId then (.err 400 "É necessário um usuário para criar o grupo!", s)
  else if jsFalsyStr name then (.err 400 "Nome é obrigatório!", s)
  else if jsFalsyStr password then (.err 400 "Senha é obrigatória", s)
  else
    match s.groups.find? (fun g => g.name == name.getD "") with
    | some _ => (.err 400 "Já existe um grupo com esse nome!", s)
    | none =>
      let g : Group := ⟨s.nextGroupId, name.getD "", bhash (password.getD "")⟩
      let s1 : Store := { s with groups := s.groups ++ [g], nextGroupId := s.nextGroupId + 1 }
      match updateUserGroupId s1 g.id (some g.id) with
      | none => (.err 400 "Record to update not found.", s1)
      | some (_, s2) => (.ok 201 "Grupo cadastrado com sucesso!" g.id, s2)

/-- POST /group/join.  The group-absent branch throws the (copy-pasted)
message about a duplicate group name; password check uses bcrypt.compareSync. -/
def joinGroup (bverify : String → String → Bool) (s : Store)
    (userId groupId : Option Nat) (password : Option String) : Outcome Nat × Store :=
  if jsFalsyNat userId then (.err 400 "É necessário um usuário para criar o grupo!", s)
  else if jsFalsyNat groupId then (.err 400 "É necessário um usuário para criar o grupo!", s)
  else if jsFalsyStr password then (.err 400 "Senha é obrigatória!", s)
  else
    match s.groups.find? (fun g => g.id == groupId.getD 0) with
    | none => (.err 400 "Já existe um grupo com esse nome!", s)
    | some g =>
      if bverify (password.getD "") g.password then
        match updateUserGroupId s (userId.getD 0) (some (groupId.getD 0)) with
        | none => (.err 400 "Record to update not found.", s)
        | some (u, s1) => (.ok 201 "Usuário adicionado com sucesso!" u.id, s1)
      else
        (.err 400 "Senha incorreta!", s)

/-- POST /group/leave.  Only the existence of the group is checked; the
update unconditionally sets the user's groupId to null. -/
def leaveGroup (s : Store) (userId groupId : Option Nat) : Outcome Nat × Store :=
  if jsFalsyNat userId then (.err 400 "É necessário um usuário para criar o grupo!", s)
  else if jsFalsyNat groupId then (.err 400 "É necessário um usuário para criar o grupo!", s)
  else
    match s.groups.find? (fun g => g.id == groupId.getD 0) with
    | none => (.err 400 "Grupo não encontrado!", s)
    | some _ =>
      match updateUserGroupId s (userId.getD 0) none with
      | none => (.err 400 "Record to update not found.", s)
      | some (u, s1) => (.ok 201 "Usuário removido com sucesso!" u.id, s1)

/-- GET /spending/:userId for a numeric userId:
prisma.spending.findMany where userId. -/
def listByUser (s : Store) (uid : Nat) : Outcome (List Spending) :=
  .ok 200 "Lista de gastos obtidas com sucesso!"
    (s.spendings.filter (fun sp => sp.userId == uid))

/-- POST /spending (SpendingController.js).  After the handler's guards and
date parse, prisma.spending.create runs with data name, day, value, userId.
In schema.prisma `Spending.name` is a REQUIRED column (name String, not
String?), so the prisma client rejects a create whose name is undefined
(client validation error, caught as 400); the foreign key
Spending.userId → User.id makes the insert throw when the user is absent. -/
def spendingCreate (jsParseDate : String → Option Int) (s : Store)
    (userId : Option Nat) (day : Option String) (value : Option Int)
    (name : Option String) : Outcome Nat × Store :=
  if jsFalsyNat userId then (.err 400 "Um gasto deve estar relacionado a um usuário!", s)
  else if jsFalsyStr day then (.err 400 "Dia é obrigatório!", s)
  else if jsFalsyInt value then (.err 400 "Valor é obrigatório!", s)
  else
    match jsParseDate (day.getD "") with
    | none => (.err 400 "Formato de data inválido!", s)
    | some t =>
      match name with
      | none => (.err 400 "Argument name is missing", s)
      | some nm =>
        if s.users.any (fun u => u.id == userId.getD 0) then
          let sp : Spending := ⟨s.nextSpendingId, nm, t, value.getD 0, userId.getD 0⟩
          (.ok 201 "Gasto cadastrado com sucesso!" sp.id,
           { s with spendings := s.spendings ++ [sp],
                    nextSpendingId := s.nextSpendingId + 1 })
        else
          (.err 400 "Foreign key constraint failed", s)

/-! Helper lemmas about the user-update map used by prisma.user.update. -/

theorem find?_update_self (l : List User) (uid0 : Nat) (u u' : User)
    (hfind : l.find? (fun v => v.id == uid0) = some u) (hid : u'.id = uid0) :
    (l.map (fun v => if v.id == uid0 then u' else v)).find? (fun v => v.id == uid0)
      = some u' := by
  induction l with
  | nil => simp at hfind
  | cons v tl ih =>
    by_cases h : v.id = uid0
    · simp [List.find?_cons, h, hid]
    · have hb : (v.id == uid0) = false := by simp [h]
      simp only [List.find?_cons, hb] at hfind
      simp only [List.map_cons, List.find?_cons, hb, Bool.false_eq_true, if_false]
      exact ih hfind

theorem find?_update_other (l : List User) (uid0 uid : Nat) (u' : User)
    (hid : u'.id = uid0) (hne : uid ≠ uid0) :
    (l.map (fun v => if v.id == uid0 then u' else v)).find? (fun v => v.id == uid)
      = l.find? (fun v => v.id == uid) := by
  induction l with
  | nil => rfl
  | cons v tl ih =>
    by_cases h : v.id = uid0
    · have h1 : (u'.id == uid) = false := by simp [hid, Ne.symm hne]
      have h2 : (v.id == uid) = false := by simp [h, Ne.symm hne]
      simp only [List.map_cons, if_pos (by simp [h] : (v.id == uid0) = true),
        List.find?_cons, h1, h2]
      exact ih
    · simp only [List.map_cons, if_neg (by simp [h] : ¬(v.id == uid0) = true)]
      by_cases hp : v.id = uid
      · have hb : (v.id == uid) = true := by simp [hp]
        simp only [List.find?_cons, hb]
      · have hb : (v.id == uid) = false := by simp [hp]
        simp only [List.find?_cons, hb]
        exact ih

/-- C9: for every numeric id, GET /group/:id responds with status 200 even
when no group with that id exists, returning an empty list as data; the
handler never returns 404 (the lookup is a filtered findMany, not an
existence-checked single fetch). -/
theorem getGroup_no_404 (s : Store) (gid : Nat) :
    (getGroup s gid).status = 200 ∧
    (s.groups.find? (fun g => g.id == gid) = none →
      getGroup s gid = .ok 200 "Grupo obtido com sucesso!" []) := by
  constructor
  · rfl
  · intro h
    have hnil : s.groups.filter (fun g => g.id == gid) = [] := by
      rw [List.filter_eq_nil_iff]
      intro g hg
      exact List.find?_eq_none.mp h g hg
    simp [getGroup, hnil]

theorem getGroup_no_404_witness :
    (getGroup ⟨[⟨1, "a", "a@x", "h", none⟩], [⟨1, "g", "gh"⟩], [], 2, 2, 1⟩ 7).status = 200 ∧
    getGroup ⟨[⟨1, "a", "a@x", "h", none⟩], [⟨1, "g", "gh"⟩], [], 2, 2, 1⟩ 7 =
      .ok 200 "Grupo obtido com sucesso!" [] :=
  ⟨(getGroup_no_404 ⟨[⟨1, "a", "a@x", "h", none⟩], [⟨1, "g", "gh"⟩], [], 2, 2, 1⟩ 7).1,
   (getGroup_no_404 ⟨[⟨1, "a", "a@x", "h", none⟩], [⟨1, "g", "gh"⟩], [], 2, 2, 1⟩ 7).2
     (by decide)⟩

/-- C5: POST /login — a missing or empty email or password is rejected as a
validation error (400); an unknown email yields 404; an existing user with a
non-verifying password yields the 400 wrong-credentials rejection; otherwise
the response is 200 carrying the user's id and a signed token embedding that
user id and email. -/
theorem login_spec (bverify : String → String → Bool) (s : Store)
    (oem opw : Option String) :
    ((jsFalsyStr oem || jsFalsyStr opw) = true →
      login bverify s oem opw = (.err 400 "Email ou senha inválidos", s)) ∧
    (∀ em pw, oem = some em → opw = some pw → em ≠ "" → pw ≠ "" →
      (s.users.find? (fun u => u.email == em) = none →
        login bverify s oem opw = (.err 404 "Usuário não encontrado!", s)) ∧
      (∀ u, s.users.find? (fun u0 => u0.email == em) = some u →
        bverify pw u.password = false →
        login bverify s oem opw = (.err 400 "Email ou senha incorretos!", s)) ∧
      (∀ u, s.users.find? (fun u0 => u0.email == em) = some u →
        bverify pw u.password = true →
        login bverify s oem opw =
          (.ok 200 "Login efetuado com sucesso!" (u.id, jwtSign u.id u.email), s))) := by
  constructor
  · intro h
    simp [login, h]
  · rintro em pw rfl rfl hem hpw
    have hf : (jsFalsyStr (some em) || jsFalsyStr (some pw)) = false := by
      simp [jsFalsyStr, hem, hpw]
    refine ⟨fun h => ?_, fun u hu hv => ?_, fun u hu hv => ?_⟩
    · simp only [login, hf, Bool.false_eq_true, if_false, Option.getD_some, h]
    · simp only [login, hf, Bool.false_eq_true, if_false, Option.getD_some, hu, hv]
    · simp only [login, hf, Bool.false_eq_true, if_false, Option.getD_some, hu, hv, if_true]

def loginStore : Store :=
  ⟨[⟨1, "alice", "alice@x", "HASH", none⟩], [], [], 2, 1, 1⟩

theorem login_spec_witness :
    login (fun p h => p == "pw" && h == "HASH") loginStore (some "alice@x") (some "pw") =
      (.ok 200 "Login efetuado com sucesso!"
        (1, jwtSign 1 "alice@x"), loginStore) :=
  ((login_spec (fun p h => p == "pw" && h == "HASH") loginStore
      (some "alice@x") (some "pw")).2 "alice@x" "pw" rfl rfl (by decide) (by decide)).2.2
    ⟨1, "alice", "alice@x", "HASH", none⟩ (by decide) (by decide)

/-- Shared success lemma for POST /group/leave: with both fields present and
the group existing, the user's groupId is cleared and the response carries
the user's id.  Used by the claims about leaveGroup. -/
theorem leaveGroup_ok (s : Store) (uid gid : Nat) (g : Group) (u : User)
    (huid : uid ≠ 0) (hgid : gid ≠ 0)
    (hg : s.groups.find? (fun g0 => g0.id == gid) = some g)
    (hu : s.users.find? (fun v => v.id == uid) = some u) :
    (leaveGroup s (some uid) (some gid)).1 =
      .ok 201 "Usuário removido com sucesso!" u.id ∧
    ((leaveGroup s (some uid) (some gid)).2.users.find? (fun v => v.id == uid))
      = some { u with groupId := none } := by
  have hfu : jsFalsyNat (some uid) = false := by simp [jsFalsyNat, huid]
  have hfg : jsFalsyNat (some gid) = false := by simp [jsFalsyNat, hgid]
  have hid : u.id = uid := by
    have := List.find?_some hu
    simpa using this
  have hupd : updateUserGroupId s uid none =
      some ({ u with groupId := none },
        { s with users := List.map (fun v => if v.id == uid then { u with groupId := none } else v) s.users }) := by
    simp [updateUserGroupId, hu]
  constructor
  · simp only [leaveGroup, hfu, hfg, Bool.false_eq_true, if_false,
      Option.getD_some, hg, hupd]
  · simp only [leaveGroup, hfu, hfg, Bool.false_eq_true, if_false,
      Option.getD_some, hg, hupd]
    exact find?_update_self s.users uid u _ hu hid

/-- C8: POST /group/leave with both fields present: when no group with the
given id exists, the handler rejects with the group-not-found error and the
store is unchanged; otherwise (the target user existing) that user's groupId
is cleared to none and the response carries the user's id. -/
theorem leaveGroup_spec (s : Store) (uid gid : Nat)
    (huid : uid ≠ 0) (hgid : gid ≠ 0) :
    (s.groups.find? (fun g0 => g0.id == gid) = none →
      leaveGroup s (some uid) (some gid) = (.err 400 "Grupo não encontrado!", s)) ∧
    (∀ g u, s.groups.find? (fun g0 => g0.id == gid) = some g →
      s.users.find? (fun v => v.id == uid) = some u →
      (leaveGroup s (some uid) (some gid)).1 =
        .ok 201 "Usuário removido com sucesso!" u.id ∧
      ((leaveGroup s (some uid) (some gid)).2.users.find? (fun v => v.id == uid))
        = some { u with groupId := none }) := by
  have hfu : jsFalsyNat (some uid) = false := by simp [jsFalsyNat, huid]
  have hfg : jsFalsyNat (some gid) = false := by simp [jsFalsyNat, hgid]
  constructor
  · intro h
    simp only [leaveGroup, hfu, hfg, Bool.false_eq_true, if_false,
      Option.getD_some, h]
  · intro g u hg hu
    exact leaveGroup_ok s uid gid g u huid hgid hg hu

def leaveStore : Store :=
  ⟨[⟨1, "alice", "alice@x", "H", some 3⟩], [⟨3, "g", "GH"⟩], [], 2, 4, 1⟩

theorem leaveGroup_spec_witness :
    leaveGroup leaveStore (some 1) (some 9) = (.err 400 "Grupo não encontrado!", leaveStore) ∧
    (leaveGroup leaveStore (some 1) (some 3)).1 =
      .ok 201 "Usuário removido com sucesso!" 1 :=
  ⟨(leaveGroup_spec leaveStore 1 9 (by decide) (by decide)).1 (by decide),
   ((leaveGroup_spec leaveStore 1 3 (by decide) (by decide)).2
      ⟨3, "g", "GH"⟩ ⟨1, "alice", "alice@x", "H", some 3⟩ (by decide) (by decide)).1⟩

/-- C10: leaveGroup never checks membership — for an existing group and an
existing user whose current groupId DIFFERS from the target group, the
request still succeeds, clearing the user's groupId to none; only the
existence of the group is checked, not the relation between user and group. -/
theorem leaveGroup_no_membership_check (s : Store) (uid gid : Nat)
    (g : Group) (u : User) (huid : uid ≠ 0) (hgid : gid ≠ 0)
    (hg : s.groups.find? (fun g0 => g0.id == gid) = some g)
    (hu : s.users.find? (fun v => v.id == uid) = some u)
    (hmis : u.groupId ≠ some gid) :
    (leaveGroup s (some uid) (some gid)).1 =
      .ok 201 "Usuário removido com sucesso!" u.id ∧
    ((leaveGroup s (some uid) (some gid)).2.users.find? (fun v => v.id == uid))
      = some { u with groupId := none } :=
  leaveGroup_ok s uid gid g u huid hgid hg hu

def leaveStore2 : Store :=
  ⟨[⟨2, "bob", "bob@x", "H2", some 8⟩], [⟨3, "g", "GH"⟩, ⟨8, "h", "HH"⟩], [], 3, 9, 1⟩

theorem leaveGroup_no_membership_check_witness :
    (leaveGroup leaveStore2 (some 2) (some 3)).1 =
      .ok 201 "Usuário removido com sucesso!" 2 ∧
    ((leaveGroup leaveStore2 (some 2) (some 3)).2.users.find? (fun v => v.id == 2))
      = some ⟨2, "bob", "bob@x", "H2", none⟩ :=
  leaveGroup_no_membership_check leaveStore2 2 3 ⟨3, "g", "GH"⟩
    ⟨2, "bob", "bob@x", "H2", some 8⟩ (by decide) (by decide) (by decide) (by decide)
    (by decide)

/-- C4: POST /group/join with all three fields present: a missing group is
rejected (the handler's group-absent branch, the spec's NotFound case); an
existing group with a non-verifying password is rejected with the
wrong-password error (the spec's Unauthorized case); otherwise the user
identified by userId gets groupId set to exactly the target group and the
response carries that user's id. -/
theorem joinGroup_spec (bverify : String → String → Bool) (s : Store)
    (uid gid : Nat) (pw : String)
    (huid : uid ≠ 0) (hgid : gid ≠ 0) (hpw : pw ≠ "") :
    (s.groups.find? (fun g0 => g0.id == gid) = none →
      joinGroup bverify s (some uid) (some gid) (some pw) =
        (.err 400 "Já existe um grupo com esse nome!", s)) ∧
    (∀ g, s.groups.find? (fun g0 => g0.id == gid) = some g →
      bverify pw g.password = false →
      joinGroup bverify s (some uid) (some gid) (some pw) =
        (.err 400 "Senha incorreta!", s)) ∧
    (∀ g u, s.groups.find? (fun g0 => g0.id == gid) = some g →
      bverify pw g.password = true →
      s.users.find? (fun v => v.id == uid) = some u →
      (joinGroup bverify s (some uid) (some gid) (some pw)).1 =
        .ok 201 "Usuário adicionado com sucesso!" u.id ∧
      ((joinGroup bverify s (some uid) (some gid) (some pw)).2.users.find?
          (fun v => v.id == uid)) = some { u with groupId := some gid }) := by
  have hfu : jsFalsyNat (some uid) = false := by simp [jsFalsyNat, huid]
  have hfg : jsFalsyNat (some gid) = false := by simp [jsFalsyNat, hgid]
  have hfp : jsFalsyStr (some pw) = false := by simp [jsFalsyStr, hpw]
  refine ⟨fun h => ?_, fun g hg hv => ?_, fun g u hg hv hu => ?_⟩
  · simp only [joinGroup, hfu, hfg, hfp, Bool.false_eq_true, if_false,
      Option.getD_some, h]
  · simp only [joinGroup, hfu, hfg, hfp, Bool.false_eq_true, if_false,
      Option.getD_some, hg, hv]
  · have hid : u.id = uid := by
      have := List.find?_some hu
      simpa using this
    have hupd : updateUserGroupId s uid (some gid) =
        some ({ u with groupId := some gid },
          { s with users := List.map (fun v => if v.id == uid then { u with groupId := some gid } else v) s.users }) := by
      simp [updateUserGroupId, hu]
    constructor
    · simp only [joinGroup, hfu, hfg, hfp, Bool.false_eq_true, if_false,
        Option.getD_some, hg, hv, if_true, hupd]
    · simp only [joinGroup, hfu, hfg, hfp, Bool.false_eq_true, if_false,
        Option.getD_some, hg, hv, if_true, hupd]
      exact find?_update_self s.users uid u _ hu hid

def joinStore : Store :=
  ⟨[⟨1, "alice", "alice@x", "H", none⟩], [⟨3, "g", "GH"⟩], [], 2, 4, 1⟩

theorem joinGroup_spec_witness :
    joinGroup (fun p h => p == "gpw" && h == "GH") joinStore
        (some 1) (some 9) (some "gpw") =
      (.err 400 "Já existe um grupo com esse nome!", joinStore) ∧
    joinGroup (fun p h => p == "gpw" && h == "GH") joinStore
        (some 1) (some 3) (some "bad") =
      (.err 400 "Senha incorreta!", joinStore) ∧
    (joinGroup (fun p h => p == "gpw" && h == "GH") joinStore
        (some 1) (some 3) (some "gpw")).1 =
      .ok 201 "Usuário adicionado com sucesso!" 1 :=
  ⟨(joinGroup_spec (fun p h => p == "gpw" && h == "GH") joinStore 1 9 "gpw"
      (by decide) (by decide) (by decide)).1 (by decide),
   (joinGroup_spec (fun p h => p == "gpw" && h == "GH") joinStore 1 3 "bad"
      (by decide) (by decide) (by decide)).2.1 ⟨3, "g", "GH"⟩ (by decide) (by decide),
   ((joinGroup_spec (fun p h => p == "gpw" && h == "GH") joinStore 1 3 "gpw"
      (by decide) (by decide) (by decide)).2.2 ⟨3, "g", "GH"⟩
      ⟨1, "alice", "alice@x", "H", none⟩ (by decide) (by decide) (by decide)).1⟩

/-- C2: POST /user — the existence lookup is built but never awaited, so the
guard compares a pending Promise object against null and is always satisfied:
the duplicate-email rejection branch (400 Email já) is never taken, and with
all three fields present registration always proceeds to the create, which
succeeds exactly when the email is not yet stored (a stored duplicate makes
the insert fail only on the database unique constraint, not on the handler's
check). -/
theorem register_spec (bhash : String → String) (s : Store)
    (onm oem opw : Option String) :
    ((register bhash s onm oem opw).1 ≠ .err 400 "Email já") ∧
    (∀ nm em pw, onm = some nm → oem = some em → opw = some pw →
      nm ≠ "" → em ≠ "" → pw ≠ "" →
      (s.users.any (fun u => u.email == em) = false →
        register bhash s onm oem opw =
          (.ok 201 "Usuário cadastrado com sucesso!" s.nextUserId,
           { s with users := s.users ++ [⟨s.nextUserId, nm, em, bhash pw, none⟩],
                    nextUserId := s.nextUserId + 1 })) ∧
      (s.users.any (fun u => u.email == em) = true →
        register bhash s onm oem opw =
          (.err 400 "Unique constraint failed on the fields: (email)", s))) := by
  constructor
  · by_cases h1 : jsFalsyStr onm
    · simp [register, h1]
    · by_cases h2 : jsFalsyStr oem
      · simp [register, h1, h2]
      · by_cases h3 : jsFalsyStr opw
        · simp [register, h1, h2, h3]
        · by_cases h4 : s.users.any (fun u => u.email == oem.getD "")
          · simp [register, h1, h2, h3, createUserRow, JsPromise.isNullJs, h4]
          · simp [register, h1, h2, h3, createUserRow, JsPromise.isNullJs, h4]
  · rintro nm em pw rfl rfl rfl hnm hem hpw
    have f1 : jsFalsyStr (some nm) = false := by simp [jsFalsyStr, hnm]
    have f2 : jsFalsyStr (some em) = false := by simp [jsFalsyStr, hem]
    have f3 : jsFalsyStr (some pw) = false := by simp [jsFalsyStr, hpw]
    constructor
    · intro h
      simp [register, f1, f2, f3, createUserRow, JsPromise.isNullJs, h]
    · intro h
      simp [register, f1, f2, f3, createUserRow, JsPromise.isNullJs, h]

def regStore : Store := ⟨[⟨1, "alice", "dup@x", "H", none⟩], [], [], 2, 1, 1⟩

theorem register_spec_witness :
    (register (fun p => p ++ "#") regStore (some "bob") (some "dup@x") (some "pw")).1 ≠
      .err 400 "Email já" ∧
    register (fun p => p ++ "#") regStore (some "bob") (some "b@x") (some "pw") =
      (.ok 201 "Usuário cadastrado com sucesso!" 2,
       ⟨[⟨1, "alice", "dup@x", "H", none⟩, ⟨2, "bob", "b@x", "pw#", none⟩], [], [], 3, 1, 1⟩) :=
  ⟨(register_spec (fun p => p ++ "#") regStore (some "bob") (some "dup@x") (some "pw")).1,
   ((register_spec (fun p => p ++ "#") regStore (some "bob") (some "b@x") (some "pw")).2
      "bob" "b@x" "pw" rfl rfl rfl (by decide) (by decide) (by decide)).1 (by decide)⟩

/-- C6: round-trip — a successful spending create(userId, day, value, name)
followed by listByUser(userId) returns a list containing a spending whose
day (the parsed timestamp of the supplied string), value and name equal the
ones supplied to create. -/
theorem spending_roundtrip (jsParseDate : String → Option Int) (s : Store)
    (uid : Nat) (day nm : String) (v t : Int)
    (huid : uid ≠ 0) (hday : day ≠ "") (hv : v ≠ 0)
    (hpd : jsParseDate day = some t)
    (huser : s.users.any (fun u => u.id == uid) = true) :
    (spendingCreate jsParseDate s (some uid) (some day) (some v) (some nm)).1 =
      .ok 201 "Gasto cadastrado com sucesso!" s.nextSpendingId ∧
    ∃ l, listByUser
        (spendingCreate jsParseDate s (some uid) (some day) (some v) (some nm)).2 uid
        = .ok 200 "Lista de gastos obtidas com sucesso!" l ∧
      ∃ sp, sp ∈ l ∧ sp.name = nm ∧ sp.day = t ∧ sp.value = v := by
  have f1 : jsFalsyNat (some uid) = false := by simp [jsFalsyNat, huid]
  have f2 : jsFalsyStr (some day) = false := by simp [jsFalsyStr, hday]
  have f3 : jsFalsyInt (some v) = false := by simp [jsFalsyInt, hv]
  have hcr : spendingCreate jsParseDate s (some uid) (some day) (some v) (some nm) =
      (.ok 201 "Gasto cadastrado com sucesso!" s.nextSpendingId,
       { s with spendings := s.spendings ++ [⟨s.nextSpendingId, nm, t, v, uid⟩],
                nextSpendingId := s.nextSpendingId + 1 }) := by
    simp only [spendingCreate, f1, f2, f3, Bool.false_eq_true, if_false,
      Option.getD_some, hpd, huser, if_true]
  refine ⟨by rw [hcr], ?_⟩
  rw [hcr]
  refine ⟨_, rfl, ⟨s.nextSpendingId, nm, t, v, uid⟩, ?_, rfl, rfl, rfl⟩
  rw [List.mem_filter]
  constructor
  · exact List.mem_append_right _ (List.mem_singleton.mpr rfl)
  · simp

def rtStore : Store := ⟨[⟨1, "alice", "a@x", "H", none⟩], [], [], 2, 1, 1⟩

def rtParseDate : String → Option Int :=
  fun d => if d == "2024-09-03T12:34:56Z" then some 1725366896000 else none

theorem spending_roundtrip_witness :
    (spendingCreate rtParseDate rtStore (some 1) (some "2024-09-03T12:34:56Z")
        (some 50) (some "food")).1 =
      .ok 201 "Gasto cadastrado com sucesso!" 1 ∧
    ∃ l, listByUser
        (spendingCreate rtParseDate rtStore (some 1) (some "2024-09-03T12:34:56Z")
          (some 50) (some "food")).2 1
        = .ok 200 "Lista de gastos obtidas com sucesso!" l ∧
      ∃ sp, sp ∈ l ∧ sp.name = "food" ∧ sp.day = 1725366896000 ∧ sp.value = 50 :=
  spending_roundtrip rtParseDate rtStore 1 "2024-09-03T12:34:56Z" "food" 50
    1725366896000 (by decide) (by decide) (by decide) (by decide) (by decide)

/-- C7 counterexample: the claim says name is optional — that with userId, day
and value present and valid but name omitted, a spending is persisted and its
id returned.  On the code, schema.prisma declares Spending.name as a required
column, so the prisma client rejects the create: the handler answers 400 and
the store is unchanged (no spending persisted). -/
theorem spendingCreate_name_required_counterexample :
    (spendingCreate rtParseDate rtStore (some 1) (some "2024-09-03T12:34:56Z")
        (some 50) none).1 = .err 400 "Argument name is missing" ∧
    (spendingCreate rtParseDate rtStore (some 1) (some "2024-09-03T12:34:56Z")
        (some 50) none).2 = rtStore := by decide

/-- C7 amended: POST /spending fails with a 400 validation error when userId,
day or value is missing or zero, or when day is not a parseable timestamp;
name is — contrary to the claim — also required (schema.prisma declares
Spending.name non-optional, so the prisma client rejects a create without
it); with all four fields present and valid and the referenced user existing,
a new spending is persisted and its id returned. -/
theorem spendingCreate_spec (jsParseDate : String → Option Int) (s : Store)
    (ouid : Option Nat) (oday : Option String) (ov : Option Int)
    (onm : Option String) :
    (jsFalsyNat ouid = true →
      spendingCreate jsParseDate s ouid oday ov onm =
        (.err 400 "Um gasto deve estar relacionado a um usuário!", s)) ∧
    (jsFalsyNat ouid = false → jsFalsyStr oday = true →
      spendingCreate jsParseDate s ouid oday ov onm =
        (.err 400 "Dia é obrigatório!", s)) ∧
    (jsFalsyNat ouid = false → jsFalsyStr oday = false → jsFalsyInt ov = true →
      spendingCreate jsParseDate s ouid oday ov onm =
        (.err 400 "Valor é obrigatório!", s)) ∧
    (∀ day, oday = some day → jsFalsyNat ouid = false → jsFalsyStr oday = false →
      jsFalsyInt ov = false → jsParseDate day = none →
      spendingCreate jsParseDate s ouid oday ov onm =
        (.err 400 "Formato de data inválido!", s)) ∧
    (∀ day t, oday = some day → jsFalsyNat ouid = false → jsFalsyStr oday = false →
      jsFalsyInt ov = false → jsParseDate day = some t → onm = none →
      spendingCreate jsParseDate s ouid oday ov onm =
        (.err 400 "Argument name is missing", s)) ∧
    (∀ uid day v t nm, ouid = some uid → oday = some day → ov = some v →
      onm = some nm → uid ≠ 0 → day ≠ "" → v ≠ 0 → jsParseDate day = some t →
      s.users.any (fun u => u.id == uid) = true →
      spendingCreate jsParseDate s ouid oday ov onm =
        (.ok 201 "Gasto cadastrado com sucesso!" s.nextSpendingId,
         { s with spendings := s.spendings ++ [⟨s.nextSpendingId, nm, t, v, uid⟩],
                  nextSpendingId := s.nextSpendingId + 1 })) := by
  refine ⟨fun h1 => ?_, fun h1 h2 => ?_, fun h1 h2 h3 => ?_,
    fun day hd h1 h2 h3 hpd => ?_, fun day t hd h1 h2 h3 hpd hn => ?_,
    fun uid day v t nm hu hd hv0 hn huid hday hvz hpd hex => ?_⟩
  · simp [spendingCreate, h1]
  · simp [spendingCreate, h1, h2]
  · simp [spendingCreate, h1, h2, h3]
  · subst hd
    simp only [spendingCreate, h1, h2, h3, Bool.false_eq_true, if_false,
      Option.getD_some, hpd]
  · subst hd; subst hn
    simp only [spendingCreate, h1, h2, h3, Bool.false_eq_true, if_false,
      Option.getD_some, hpd]
  · subst hu; subst hd; subst hv0; subst hn
    have f1 : jsFalsyNat (some uid) = false := by simp [jsFalsyNat, huid]
    have f2 : jsFalsyStr (some day) = false := by simp [jsFalsyStr, hday]
    have f3 : jsFalsyInt (some v) = false := by simp [jsFalsyInt, hvz]
    simp only [spendingCreate, f1, f2, f3, Bool.false_eq_true, if_false,
      Option.getD_some, hpd, hex, if_true]

theorem spendingCreate_spec_witness :
    spendingCreate rtParseDate
        ⟨[⟨1, "alice", "a@x", "H", none⟩], [], [], 2, 1, 5⟩
        (some 1) (some "2024-09-03T12:34:56Z") (some 50) (some "food") =
      (.ok 201 "Gasto cadastrado com sucesso!" 5,
       ⟨[⟨1, "alice", "a@x", "H", none⟩], [],
        [⟨5, "food", 1725366896000, 50, 1⟩], 2, 1, 6⟩) :=
  ((spendingCreate_spec rtParseDate
      ⟨[⟨1, "alice", "a@x", "H", none⟩], [], [], 2, 1, 5⟩
      (some 1) (some "2024-09-03T12:34:56Z") (some 50) (some "food")).2.2.2.2.2
    1 "2024-09-03T12:34:56Z" 50 1725366896000 "food" rfl rfl rfl rfl
    (by decide) (by decide) (by decide) (by decide) (by decide))

def cgStore : Store :=
  ⟨[⟨1, "alice", "a@x", "H1", none⟩, ⟨2, "bob", "b@x", "H2", none⟩], [], [], 3, 1, 1⟩

/-- C1 counterexample: in a store with users 1 and 2 and next group id 1,
user 2 creates a group with a fresh name; the handler reports success
(201, group id 1), but the creating user (id 2) does NOT end with groupId
equal to the new group's id — its row is unchanged — while user 1 (whose id
happens to equal the new group's id) was joined instead. -/
theorem createGroup_creator_not_joined :
    (createGroup (fun p => p ++ "#") cgStore (some 2) (some "g") (some "pw")).1 =
      .ok 201 "Grupo cadastrado com sucesso!" 1 ∧
    ((createGroup (fun p => p ++ "#") cgStore (some 2) (some "g") (some "pw")).2.users.find?
        (fun v => v.id == 2)) = some ⟨2, "bob", "b@x", "H2", none⟩ ∧
    ((createGroup (fun p => p ++ "#") cgStore (some 2) (some "g") (some "pw")).2.users.find?
        (fun v => v.id == 1)) = some ⟨1, "alice", "a@x", "H1", some 1⟩ := by decide

/-- C1 amended: with all three fields present, a duplicate group name is
rejected with no new group created; otherwise a group with id nextGroupId is
created, and the membership update is keyed on the NEW GROUP's id rather than
the supplied userId: when a user with that id exists the request succeeds and
THAT user's groupId becomes the new group's id, while the supplied user's row
is unchanged whenever its id differs from the new group's id (the creator
becomes a member only in that coincidental case). -/
theorem createGroup_spec (bhash : String → String) (s : Store)
    (uid : Nat) (nm pw : String)
    (huid : uid ≠ 0) (hnm : nm ≠ "") (hpw : pw ≠ "") :
    (∀ g0, s.groups.find? (fun g => g.name == nm) = some g0 →
      createGroup bhash s (some uid) (some nm) (some pw) =
        (.err 400 "Já existe um grupo com esse nome!", s)) ∧
    (s.groups.find? (fun g => g.name == nm) = none →
      ∀ u, s.users.find? (fun v => v.id == s.nextGroupId) = some u →
      (createGroup bhash s (some uid) (some nm) (some pw)).1 =
        .ok 201 "Grupo cadastrado com sucesso!" s.nextGroupId ∧
      (createGroup bhash s (some uid) (some nm) (some pw)).2.groups =
        s.groups ++ [⟨s.nextGroupId, nm, bhash pw⟩] ∧
      ((createGroup bhash s (some uid) (some nm) (some pw)).2.users.find?
          (fun v => v.id == s.nextGroupId)) =
        some { u with groupId := some s.nextGroupId } ∧
      (uid ≠ s.nextGroupId →
        (createGroup bhash s (some uid) (some nm) (some pw)).2.users.find?
            (fun v => v.id == uid) =
          s.users.find? (fun v => v.id == uid))) := by
  have f1 : jsFalsyNat (some uid) = false := by simp [jsFalsyNat, huid]
  have f2 : jsFalsyStr (some nm) = false := by simp [jsFalsyStr, hnm]
  have f3 : jsFalsyStr (some pw) = false := by simp [jsFalsyStr, hpw]
  constructor
  · intro g0 hg0
    simp only [createGroup, f1, f2, f3, Bool.false_eq_true, if_false,
      Option.getD_some, hg0]
  · intro hfresh u hu
    have hid : u.id = s.nextGroupId := by
      have := List.find?_some hu
      simpa using this
    have hupd : updateUserGroupId
        { s with groups := s.groups ++ [⟨s.nextGroupId, nm, bhash pw⟩],
                 nextGroupId := s.nextGroupId + 1 }
        s.nextGroupId (some s.nextGroupId) =
        some ({ u with groupId := some s.nextGroupId },
          { s with
            users := List.map (fun v => if v.id == s.nextGroupId then { u with groupId := some s.nextGroupId } else v) s.users,
            groups := s.groups ++ [⟨s.nextGroupId, nm, bhash pw⟩],
            nextGroupId := s.nextGroupId + 1 }) := by
      simp [updateUserGroupId, hu]
    have hrun : createGroup bhash s (some uid) (some nm) (some pw) =
        (.ok 201 "Grupo cadastrado com sucesso!" s.nextGroupId,
         { s with
           users := List.map (fun v => if v.id == s.nextGroupId then { u with groupId := some s.nextGroupId } else v) s.users,
           groups := s.groups ++ [⟨s.nextGroupId, nm, bhash pw⟩],
           nextGroupId := s.nextGroupId + 1 }) := by
      simp only [createGroup, f1, f2, f3, Bool.false_eq_true, if_false,
        Option.getD_some, hfresh, hupd]
    refine ⟨by rw [hrun], by rw [hrun], ?_, ?_⟩
    · rw [hrun]
      exact find?_update_self s.users s.nextGroupId u _ hu hid
    · intro hne
      rw [hrun]
      exact find?_update_other s.users s.nextGroupId uid _ hid hne

theorem createGroup_spec_witness :
    (createGroup (fun p => p ++ "#") cgStore (some 2) (some "fam") (some "pw")).1 =
      .ok 201 "Grupo cadastrado com sucesso!" 1 ∧
    (createGroup (fun p => p ++ "#") cgStore (some 2) (some "fam") (some "pw")).2.groups =
      cgStore.groups ++ [⟨1, "fam", "pw#"⟩] ∧
    ((createGroup (fun p => p ++ "#") cgStore (some 2) (some "fam") (some "pw")).2.users.find?
        (fun v => v.id == 1)) = some ⟨1, "alice", "a@x", "H1", some 1⟩ ∧
    ((createGroup (fun p => p ++ "#") cgStore (some 2) (some "fam") (some "pw")).2.users.find?
        (fun v => v.id == 2)) = cgStore.users.find? (fun v => v.id == 2) := by
  have h := (createGroup_spec (fun p => p ++ "#") cgStore 2 "fam" "pw"
    (by decide) (by decide) (by decide)).2 rfl
    ⟨1, "alice", "a@x", "H1", none⟩ (by decide)
  exact ⟨h.1, h.2.1, h.2.2.1, h.2.2.2 (by decide)⟩

/-! C3: the observational equivalence of the group-listing endpoints under
change of stored password hashes. -/

/-- Two user rows that agree on everything the group listing selects
(id, name, email, group membership), the password possibly differing. -/
def userSamePublic (u v : User) : Prop :=
  u.id = v.id ∧ u.name = v.name ∧ u.email = v.email ∧ u.groupId = v.groupId

/-- Two group rows that agree on id and name, the password possibly differing. -/
def groupSamePublic (g h : Group) : Prop := g.id = h.id ∧ g.name = h.name

/-- Two stores that differ at most in the stored password hashes of users
and groups. -/
def agreeExceptPasswords (s t : Store) : Prop :=
  List.Forall₂ userSamePublic s.users t.users ∧
  List.Forall₂ groupSamePublic s.groups t.groups ∧
  s.spendings = t.spendings

theorem selectUsers_eq (sp : List Spending) (gid : Nat) :
    ∀ {l m : List User}, List.Forall₂ userSamePublic l m →
      (l.filter (fun u => u.groupId == some gid)).map (selectUser sp) =
      (m.filter (fun u => u.groupId == some gid)).map (selectUser sp) := by
  intro l m h
  induction h with
  | nil => rfl
  | @cons u v l' m' huv htail ih =>
    obtain ⟨h1, h2, h3, h4⟩ := huv
    by_cases hc : (u.groupId == some gid) = true
    · have hc2 : (v.groupId == some gid) = true := by rw [← h4]; exact hc
      simp only [List.filter_cons, hc, hc2, if_true, List.map_cons, ih]
      have : selectUser sp u = selectUser sp v := by
        simp [selectUser, h1, h2, h3]
      rw [this]
    · have hc2 : ¬ (v.groupId == some gid) = true := by rw [← h4]; exact hc
      simp only [List.filter_cons, if_neg hc, if_neg hc2, ih]

theorem selectGroups_eq (users1 users2 : List User) (sp : List Spending)
    (hu : List.Forall₂ userSamePublic users1 users2) :
    ∀ {l m : List Group}, List.Forall₂ groupSamePublic l m →
      l.map (selectGroup users1 sp) = m.map (selectGroup users2 sp) := by
  intro l m h
  induction h with
  | nil => rfl
  | @cons g g' l' m' hgh htail ih =>
    obtain ⟨h1, h2⟩ := hgh
    simp only [List.map_cons, ih]
    have hview : selectGroup users1 sp g = selectGroup users2 sp g' := by
      simp only [selectGroup, h1, h2]
      rw [h1] at *
      exact congrArg (GroupView.mk g'.id g'.name) (selectUsers_eq sp g'.id hu)
    rw [hview]

theorem forall₂_filter_groups (gid : Nat) :
    ∀ {l m : List Group}, List.Forall₂ groupSamePublic l m →
      List.Forall₂ groupSamePublic (l.filter (fun g => g.id == gid))
        (m.filter (fun g => g.id == gid)) := by
  intro l m h
  induction h with
  | nil => simp
  | @cons g g' l' m' hgh htail ih =>
    by_cases hc : (g.id == gid) = true
    · have hc2 : (g'.id == gid) = true := by rw [← hgh.1]; exact hc
      simp only [List.filter_cons, hc, hc2, if_true]
      exact List.Forall₂.cons hgh ih
    · have hc2 : ¬ (g'.id == gid) = true := by rw [← hgh.1]; exact hc
      simp only [List.filter_cons, if_neg hc, if_neg hc2]
      exact ih

/-- C3: the group-listing endpoints select, for each member user, only id,
name, email and spendings (and for each group only id and name): two stores
that differ only in the stored password hashes of users and groups produce
identical GET /group and GET /group/:id responses, so no stored password
field reaches these API responses. -/
theorem group_listing_password_independent (s t : Store)
    (h : agreeExceptPasswords s t) :
    listGroups s = listGroups t ∧ ∀ gid, getGroup s gid = getGroup t gid := by
  obtain ⟨hu, hg, hsp⟩ := h
  constructor
  · simp only [listGroups, hsp]
    rw [selectGroups_eq s.users t.users t.spendings hu hg]
  · intro gid
    simp only [getGroup, hsp]
    rw [selectGroups_eq s.users t.users t.spendings hu (forall₂_filter_groups gid hg)]

def pwStoreA : Store :=
  ⟨[⟨1, "alice", "a@x", "HASH-A", some 1⟩], [⟨1, "fam", "GHASH-A"⟩],
   [⟨1, "food", 100, 5, 1⟩], 2, 2, 2⟩

def pwStoreB : Store :=
  ⟨[⟨1, "alice", "a@x", "HASH-B", some 1⟩], [⟨1, "fam", "GHASH-B"⟩],
   [⟨1, "food", 100, 5, 1⟩], 2, 2, 2⟩

theorem group_listing_password_independent_witness :
    listGroups pwStoreA = listGroups pwStoreB ∧
    getGroup pwStoreA 1 = getGroup pwStoreB 1 :=
  ⟨(group_listing_password_independent pwStoreA pwStoreB
      ⟨List.Forall₂.cons (by simp [userSamePublic, pwStoreA, pwStoreB]) List.Forall₂.nil,
       List.Forall₂.cons (by simp [groupSamePublic, pwStoreA, pwStoreB]) List.Forall₂.nil,
       rfl⟩).1,
   (group_listing_password_independent pwStoreA pwStoreB
      ⟨List.Forall₂.cons (by simp [userSamePublic, pwStoreA, pwStoreB]) List.Forall₂.nil,
       List.Forall₂.cons (by simp [groupSamePublic, pwStoreA, pwStoreB]) List.Forall₂.nil,
       rfl⟩).2 1⟩

end SpendingAPI
